import Mathlib

/-!
Verification of the Chainlink feed client for Solana (Anchor 0.31.1 compatible
fork), a shallow embedding of `src/lib.rs`.

Bytes are modelled as `Nat` (values < 256 on well-formed wires), byte buffers
as `List Nat`, 32-byte public keys as a wrapper around a byte list, and the
host runtime's cross-program invocation primitive as an explicit parameter:
it receives the instruction and the lent accounts and yields either a
`ProgramError` or, on success, the (at most one) return-data payload tagged
with the producing program's key, exactly the shape of
`solana_program::program::invoke` followed by `get_return_data`.

A Rust computation that can return `Err`, succeed, or panic (the code calls
`Option::expect`) is modelled by the three-way `Outcome` type, so a panic is
distinguished from a returned error.
-/

namespace ChainlinkSolana

/-- An opaque 32-byte identifier (`solana_program::pubkey::Pubkey`). -/
structure Pubkey where
  bytes : List Nat
deriving DecidableEq

/-- The subset of `solana_program::program_error::ProgramError` the library
touches: `InvalidAccountData` is the one it constructs itself; every other
variant that the host runtime can propagate out of `invoke` is abstracted by
an index. -/
inductive ProgramError where
  | InvalidAccountData : ProgramError
  | Other : Nat → ProgramError
deriving DecidableEq

/-- The `anchor_lang` error type as the adapters use it:
`ErrorCode::AccountNotEnoughKeys` is the one fixed code they construct;
everything else is abstracted by an index. -/
inductive AnchorError where
  | AccountNotEnoughKeys : AnchorError
  | Other : Nat → AnchorError
deriving DecidableEq

/-- Result of running a Rust function that may return `Ok`, return `Err`, or
panic (via `expect`). `E` is the error type of the `Result`. -/
inductive Outcome (E : Type) (T : Type) where
  | ok : T → Outcome E T
  | err : E → Outcome E T
  | panic : String → Outcome E T
deriving DecidableEq

/-- `solana_program::account_info::AccountInfo`, with the lamport and data
cells flattened to values (the library never reads or writes them). -/
structure AccountInfo where
  key : Pubkey
  is_signer : Bool
  is_writable : Bool
  lamports : Nat
  data : List Nat
  owner : Pubkey
  executable : Bool
  rent_epoch : Nat
deriving DecidableEq

/-- `anchor_lang::prelude::AccountInfo`: field-for-field the same shape as the
raw account info; the adapter copies every field verbatim. -/
structure AnchorAccountInfo where
  key : Pubkey
  is_signer : Bool
  is_writable : Bool
  lamports : Nat
  data : List Nat
  owner : Pubkey
  executable : Bool
  rent_epoch : Nat
deriving DecidableEq

/-- `solana_program::instruction::AccountMeta`. -/
structure AccountMeta where
  pubkey : Pubkey
  is_signer : Bool
  is_writable : Bool
deriving DecidableEq

/-- `AccountMeta::new_readonly(pubkey, is_signer)`: read-only metadata, so
`is_writable` is `false`. -/
def AccountMeta.new_readonly (pubkey : Pubkey) (is_signer : Bool) : AccountMeta :=
  { pubkey := pubkey, is_signer := is_signer, is_writable := false }

/-- `solana_program::instruction::Instruction`. -/
structure Instruction where
  program_id : Pubkey
  accounts : List AccountMeta
  data : List Nat
deriving DecidableEq

/-- The host runtime seen by the library: `invoke` takes the instruction and
the list of lent account infos and either fails with a `ProgramError` or
succeeds, in which case `get_return_data` afterwards observes at most one
return-data payload `(producing program key, bytes)`. -/
structure Runtime where
  invoke : Instruction → List AccountInfo → Except ProgramError (Option (Pubkey × List Nat))

/-- A runtime whose invocation outcome is the same for every instruction. -/
def constRuntime (r : Except ProgramError (Option (Pubkey × List Nat))) : Runtime :=
  { invoke := fun _ _ => r }

/-- The private `Query` request enum of `lib.rs`, in source declaration
order (borsh tags the variants by ordinal: 0,1,2,3,4,5). -/
inductive Query where
  | Version : Query
  | Decimals : Query
  | Description : Query
  | RoundData : (round_id : Nat) → Query
  | LatestRoundData : Query
  | Aggregator : Query
deriving DecidableEq

/-- The decoded result of a round query (`pub struct Round`). `round_id` and
`timestamp` are u32, `slot` is u64 (naturals below the respective bounds),
`answer` is i128 (an integer in the signed 128-bit range). -/
structure Round where
  round_id : Nat
  slot : Nat
  timestamp : Nat
  answer : Int
deriving DecidableEq

/-- The little-endian bytes of `n` on `k` bytes (how borsh lays out the
fixed-width unsigned integers). -/
def natToLe : Nat → Nat → List Nat
  | 0, _ => []
  | k + 1, n => n % 256 :: natToLe k (n / 256)

/-- Read a little-endian byte list back as a natural number. -/
def leToNat : List Nat → Nat
  | [] => 0
  | b :: rest => b + 256 * leToNat rest

/-- Borsh serialization of the derived `Query` enum: a one-byte ordinal tag
(0 = Version, 1 = Decimals, 2 = Description, 3 = RoundData, 4 =
LatestRoundData, 5 = Aggregator) followed by the variant payload; the
`RoundData` payload is its u32 `round_id` in little-endian. -/
def Query.serializeBytes : Query → List Nat
  | .Version => [0]
  | .Decimals => [1]
  | .Description => [2]
  | .RoundData round_id => 3 :: natToLe 4 round_id
  | .LatestRoundData => [4]
  | .Aggregator => [5]

/-- Borsh serialization of the derived `Round` struct: fields in declaration
order, `round_id` u32 LE, `slot` u64 LE, `timestamp` u32 LE, `answer` i128
two's-complement LE. -/
def Round.serializeBytes (r : Round) : List Nat :=
  natToLe 4 r.round_id ++ (natToLe 8 r.slot ++ (natToLe 4 r.timestamp ++
    natToLe 16 (Int.toNat (Int.emod r.answer (2 ^ 128)))))

/-- A borsh deserializer for `T`: consumes some bytes, yields the value and
the remaining bytes, or fails. -/
def BorshDecoder (T : Type) : Type := List Nat → Option (T × List Nat)

/-- Borsh `u8::deserialize`: read exactly one byte. -/
def u8Decode : BorshDecoder Nat :=
  fun bs => match bs with
  | [] => none
  | b :: rest => some (b, rest)

/-- Read `k` bytes as a little-endian unsigned integer, failing when fewer
than `k` bytes remain. -/
def readLe (k : Nat) : BorshDecoder Nat :=
  fun bs => if k ≤ bs.length then some (leToNat (bs.take k), bs.drop k) else none

/-- Borsh `u32::deserialize`. -/
def u32Decode : BorshDecoder Nat := readLe 4

/-- Borsh `u64::deserialize`. -/
def u64Decode : BorshDecoder Nat := readLe 8

/-- Borsh `i128::deserialize`: 16 LE bytes, reinterpreted from
two's complement into the signed 128-bit range. -/
def i128Decode : BorshDecoder Int :=
  fun bs => match readLe 16 bs with
  | none => none
  | some (u, rest) =>
      some ((if u < 2 ^ 127 then (u : Int) else (u : Int) - 2 ^ 128), rest)

/-- Borsh `Pubkey::deserialize`: exactly 32 raw bytes. -/
def pubkeyDecode : BorshDecoder Pubkey :=
  fun bs => if 32 ≤ bs.length then some (⟨bs.take 32⟩, bs.drop 32) else none

/-- Borsh `String::deserialize`: u32 LE length, then that many bytes of
UTF-8 text (`String::from_utf8` rejects invalid UTF-8). The decoded text is
kept as its byte list. Fails when fewer bytes remain than declared. -/
def stringDecode : BorshDecoder (List Nat) :=
  fun bs => match u32Decode bs with
  | none => none
  | some (len, rest) =>
      if len ≤ rest.length then
        if isValidUtf8 (rest.take len) then some (rest.take len, rest.drop len)
        else none
      else none
where
  /-- UTF-8 validity of a byte sequence, per RFC 3629 (the check
  `String::from_utf8` performs). -/
  isValidUtf8 : List Nat → Bool
  | [] => true
  | b :: rest =>
    if b < 0x80 then isValidUtf8 rest
    else if b < 0xc2 then false
    else if b < 0xe0 then
      match rest with
      | b1 :: r => isCont b1 && isValidUtf8 r
      | [] => false
    else if b < 0xf0 then
      match rest with
      | b1 :: b2 :: r =>
          (if b = 0xe0 then decide (0xa0 ≤ b1 ∧ b1 ≤ 0xbf)
           else if b = 0xed then decide (0x80 ≤ b1 ∧ b1 ≤ 0x9f)
           else isCont b1) && isCont b2 && isValidUtf8 r
      | _ => false
    else if b < 0xf5 then
      match rest with
      | b1 :: b2 :: b3 :: r =>
          (if b = 0xf0 then decide (0x90 ≤ b1 ∧ b1 ≤ 0xbf)
           else if b = 0xf4 then decide (0x80 ≤ b1 ∧ b1 ≤ 0x8f)
           else isCont b1) && isCont b2 && isCont b3 && isValidUtf8 r
      | _ => false
    else false
  /-- A UTF-8 continuation byte: `0x80 ≤ b ≤ 0xbf`. -/
  isCont (b : Nat) : Bool := decide (0x80 ≤ b ∧ b ≤ 0xbf)

/-- Borsh `Round::deserialize` for the derived struct: fields in declaration
order. -/
def roundDecode : BorshDecoder Round :=
  fun bs => match u32Decode bs with
  | none => none
  | some (round_id, bs1) =>
    match u64Decode bs1 with
    | none => none
    | some (slot, bs2) =>
      match u32Decode bs2 with
      | none => none
      | some (timestamp, bs3) =>
        match i128Decode bs3 with
        | none => none
        | some (answer, bs4) =>
            some ({ round_id := round_id, slot := slot,
                    timestamp := timestamp, answer := answer }, bs4)

/-- Borsh `T::try_from_slice`: deserialize and require the whole buffer to be
consumed; any leftover bytes or decode failure is an error (`none`). -/
def tryFromSlice {T : Type} (dec : BorshDecoder T) (bs : List Nat) : Option T :=
  match dec bs with
  | some (v, []) => some v
  | _ => none

/-- The fixed 8-byte query instruction discriminator of `lib.rs`
(`QUERY_INSTRUCTION_DISCRIMINATOR`). -/
def queryInstructionDiscriminator : List Nat :=
  [0x27, 0xfb, 0x82, 0x9f, 0x2e, 0x88, 0xa4, 0xa9]

/-- `std::io::Write::write_all` on a `Cursor<Vec<u8>>`: the standard library
implementation grows the vector and is infallible, so it always returns `Ok`
of the extended buffer. The error side of the type is kept because the source
maps a hypothetical error to `ProgramError::InvalidAccountData`. -/
def cursorWriteAll (buf bytes : List Nat) : Except Unit (List Nat) :=
  Except.ok (buf ++ bytes)

/-- `scope.serialize(&mut data)` for the derived `BorshSerialize` on `Query`:
it only writes the fixed bytes of `Query.serializeBytes` through the writer,
and the `Cursor<Vec<u8>>` writer is infallible, so it always succeeds. -/
def borshSerializeQueryTo (scope : Query) (buf : List Nat) : Except Unit (List Nat) :=
  Except.ok (buf ++ scope.serializeBytes)

/-- The instruction-building half of `query` in `lib.rs`: write the 8-byte
discriminator, borsh-serialize the `Query` variant after it (each write's
error mapped to `ProgramError::InvalidAccountData`), then build the
`Instruction` with the caller-resolved program id as target and the feed
account as the single read-only, non-signing account meta. -/
def buildInstruction (program_id feed : AccountInfo) (scope : Query) :
    Except ProgramError Instruction :=
  match cursorWriteAll [] queryInstructionDiscriminator with
  | .error _ => .error ProgramError.InvalidAccountData
  | .ok d1 =>
    match borshSerializeQueryTo scope d1 with
    | .error _ => .error ProgramError.InvalidAccountData
    | .ok d2 =>
        .ok { program_id := program_id.key,
              accounts := [AccountMeta.new_readonly feed.key false],
              data := d2 }

/-- The core `query` function of `lib.rs`: build the instruction, invoke it
synchronously lending `[feed]`, propagate any invocation error; on success
read the return data — `expect` panics with the fixed message when there is
none — and `try_from_slice` the bytes as `T`, mapping decode failure to
`ProgramError::InvalidAccountData`. -/
def query {T : Type} (rt : Runtime) (dec : BorshDecoder T)
    (program_id feed : AccountInfo) (scope : Query) : Outcome ProgramError T :=
  match buildInstruction program_id feed scope with
  | .error e => .err e
  | .ok ix =>
    match rt.invoke ix [feed] with
    | .error e => .err e
    | .ok none => .panic ("chainlink store had no return_data!")
    | .ok (some (_key, retData)) =>
      match tryFromSlice dec retData with
      | none => .err ProgramError.InvalidAccountData
      | some v => .ok v

/-- `pub fn version`: query the feed version (result type u8). -/
def version (rt : Runtime) (program_id feed : AccountInfo) : Outcome ProgramError Nat :=
  query rt u8Decode program_id feed Query.Version

/-- `pub fn decimals`: the amount of decimal places (result type u8). -/
def decimals (rt : Runtime) (program_id feed : AccountInfo) : Outcome ProgramError Nat :=
  query rt u8Decode program_id feed Query.Decimals

/-- `pub fn description`: the feed description (result type String, kept as
its UTF-8 byte list). -/
def description (rt : Runtime) (program_id feed : AccountInfo) :
    Outcome ProgramError (List Nat) :=
  query rt stringDecode program_id feed Query.Description

/-- `pub fn latest_round_data`: round data for the latest round. -/
def latest_round_data (rt : Runtime) (program_id feed : AccountInfo) :
    Outcome ProgramError Round :=
  query rt roundDecode program_id feed Query.LatestRoundData

/-- `pub fn aggregator`: the address of the underlying OCR2 aggregator. -/
def aggregator (rt : Runtime) (program_id feed : AccountInfo) :
    Outcome ProgramError Pubkey :=
  query rt pubkeyDecode program_id feed Query.Aggregator

/-- `anchor_to_solana_account_info`: copies every field verbatim from the
Anchor account-info shape into the raw one. -/
def anchor_to_solana_account_info (a : AnchorAccountInfo) : AccountInfo :=
  { key := a.key, is_signer := a.is_signer, is_writable := a.is_writable,
    lamports := a.lamports, data := a.data, owner := a.owner,
    executable := a.executable, rent_epoch := a.rent_epoch }

/-- `latest_round_data_anchor`: convert both account infos, delegate, and
map any returned error (`map_err`) to the fixed
`ErrorCode::AccountNotEnoughKeys`. A panic in the delegate unwinds through
`map_err` untouched. -/
def latest_round_data_anchor (rt : Runtime) (program_id feed : AnchorAccountInfo) :
    Outcome AnchorError Round :=
  let program_info := anchor_to_solana_account_info program_id
  let feed_info := anchor_to_solana_account_info feed
  match latest_round_data rt program_info feed_info with
  | .ok v => .ok v
  | .err _ => .err AnchorError.AccountNotEnoughKeys
  | .panic s => .panic s

/-- `decimals_anchor`: same adapter pattern for `decimals`. -/
def decimals_anchor (rt : Runtime) (program_id feed : AnchorAccountInfo) :
    Outcome AnchorError Nat :=
  let program_info := anchor_to_solana_account_info program_id
  let feed_info := anchor_to_solana_account_info feed
  match decimals rt program_info feed_info with
  | .ok v => .ok v
  | .err _ => .err AnchorError.AccountNotEnoughKeys
  | .panic s => .panic s

/-- `description_anchor`: same adapter pattern for `description`. -/
def description_anchor (rt : Runtime) (program_id feed : AnchorAccountInfo) :
    Outcome AnchorError (List Nat) :=
  let program_info := anchor_to_solana_account_info program_id
  let feed_info := anchor_to_solana_account_info feed
  match description rt program_info feed_info with
  | .ok v => .ok v
  | .err _ => .err AnchorError.AccountNotEnoughKeys
  | .panic s => .panic s

/-- `natToLe k n` always produces exactly `k` bytes. -/
theorem natToLe_length (k n : Nat) : (natToLe k n).length = k := by
  induction k generalizing n with
  | zero => rfl
  | succ k ih => simp [natToLe, ih]

/-- Reading back the `k` little-endian bytes of `n < 256 ^ k` recovers `n`. -/
theorem leToNat_natToLe (k n : Nat) (h : n < 256 ^ k) :
    leToNat (natToLe k n) = n := by
  induction k generalizing n with
  | zero => simp [natToLe, leToNat]; omega
  | succ k ih =>
      have hdiv : n / 256 < 256 ^ k := by
        apply Nat.div_lt_of_lt_mul
        calc n < 256 ^ (k + 1) := h
        _ = 256 * 256 ^ k := by ring
      have := ih (n / 256) hdiv
      simp [natToLe, leToNat, this]
      omega

/-- `readLe` consumes exactly the `k` bytes laid down by `natToLe` and leaves
the rest of the buffer. -/
theorem readLe_natToLe_append (k n : Nat) (rest : List Nat) (h : n < 256 ^ k) :
    readLe k (natToLe k n ++ rest) = some (n, rest) := by
  have hlen : (natToLe k n).length = k := natToLe_length k n
  unfold readLe
  rw [List.take_left' hlen, List.drop_left' hlen,
      if_pos (by simp [hlen]), leToNat_natToLe k n h]

/-- Round-tripping a signed 128-bit value through two's-complement LE bytes. -/
theorem i128Decode_roundtrip (a : Int) (rest : List Nat)
    (h1 : -(2 ^ 127) ≤ a) (h2 : a < 2 ^ 127) :
    i128Decode (natToLe 16 (Int.toNat (Int.emod a (2 ^ 128))) ++ rest) =
      some (a, rest) := by
  have hcase : (0 ≤ a ∧ Int.emod a (2 ^ 128) = a) ∨
      (a < 0 ∧ Int.emod a (2 ^ 128) = a + 2 ^ 128) := by
    rcases le_or_lt 0 a with hp | hn
    · exact Or.inl ⟨hp, Int.emod_eq_of_lt hp (lt_trans h2 (by norm_num))⟩
    · refine Or.inr ⟨hn, ?_⟩
      have hshift : Int.emod (a + 2 ^ 128 * 1) (2 ^ 128) = Int.emod a (2 ^ 128) :=
        Int.add_mul_emod_self_left a (2 ^ 128) 1
      rw [mul_one] at hshift
      rw [← hshift]
      apply Int.emod_eq_of_lt <;> omega
  have hnat : Int.toNat (Int.emod a (2 ^ 128)) < 256 ^ 16 := by
    have h256 : (256 : Nat) ^ 16 = 2 ^ 128 := by norm_num
    rw [h256]
    rcases hcase with ⟨ha, h⟩ | ⟨ha, h⟩ <;> omega
  unfold i128Decode
  rw [readLe_natToLe_append 16 _ rest hnat]
  show some ((if Int.toNat (Int.emod a (2 ^ 128)) < 2 ^ 127 then
      ((Int.toNat (Int.emod a (2 ^ 128)) : Int))
      else ((Int.toNat (Int.emod a (2 ^ 128)) : Int)) - 2 ^ 128), rest) =
    some (a, rest)
  have hval : (if Int.toNat (Int.emod a (2 ^ 128)) < 2 ^ 127 then
      ((Int.toNat (Int.emod a (2 ^ 128)) : Int))
      else ((Int.toNat (Int.emod a (2 ^ 128)) : Int)) - 2 ^ 128) = a := by
    rcases hcase with ⟨ha, h⟩ | ⟨ha, h⟩ <;> split <;> omega
  rw [hval]

/-- A concrete 32-byte key used to instantiate theorems on concrete inputs. -/
def testKey : Pubkey := ⟨List.replicate 32 7⟩

/-- A concrete raw account info used to instantiate theorems. -/
def testAccount : AccountInfo :=
  { key := testKey, is_signer := false, is_writable := false, lamports := 0,
    data := [], owner := testKey, executable := false, rent_epoch := 0 }

/-- A concrete Anchor-shaped account info used to instantiate theorems. -/
def testAnchorAccount : AnchorAccountInfo :=
  { key := testKey, is_signer := false, is_writable := false, lamports := 0,
    data := [], owner := testKey, executable := false, rent_epoch := 0 }

/-- C1 (counterexample): with a stub runtime that reports success but
supplies no return data, `version` panics instead of returning the generic
`InvalidAccountData` error, refuting the claim that the call fails by
returning that error and does not panic. -/
theorem c1_counterexample :
    version (constRuntime (Except.ok none)) testAccount testAccount =
      Outcome.panic ("chainlink store had no return_data!") ∧
    version (constRuntime (Except.ok none)) testAccount testAccount ≠
      Outcome.err ProgramError.InvalidAccountData := by
  exact ⟨rfl, by decide⟩

/-- C1 (amended): for every query kind, if the cross-program invocation
succeeds but the invoked program supplies no return data, the query call
panics (via `expect`) with the fixed message "chainlink store had no
return_data!" — it does not return an error, a default, or a zero value. -/
theorem c1_no_return_data_panics {T : Type} (dec : BorshDecoder T) (rt : Runtime)
    (pid feed : AccountInfo) (scope : Query) (ix : Instruction)
    (hix : buildInstruction pid feed scope = Except.ok ix)
    (hinv : rt.invoke ix [feed] = Except.ok none) :
    query rt dec pid feed scope =
      Outcome.panic ("chainlink store had no return_data!") := by
  unfold query
  rw [hix]
  simp only [hinv]

/-- C1 witness: the amended statement instantiated at a concrete stub
runtime that succeeds with no return data. -/
theorem c1_no_return_data_panics_witness :
    query (constRuntime (Except.ok none)) u8Decode testAccount testAccount
      Query.Version = Outcome.panic ("chainlink store had no return_data!") :=
  c1_no_return_data_panics u8Decode (constRuntime (Except.ok none)) testAccount
    testAccount Query.Version _ rfl rfl

/-- C2: for every `Query` variant the instruction payload is exactly the 8
bytes 27 FB 82 9F 2E 88 A4 A9 followed by the ordinal tag (Version = 0,
Decimals = 1, Description = 2, RoundData = 3 followed by its u32 round_id in
little-endian, LatestRoundData = 4, Aggregator = 5), with no padding and no
extra length prefix. -/
theorem c2_wire_format (pid feed : AccountInfo) (scope : Query) :
    Except.map Instruction.data (buildInstruction pid feed scope) =
      Except.ok ([0x27, 0xfb, 0x82, 0x9f, 0x2e, 0x88, 0xa4, 0xa9] ++
        match scope with
        | .Version => [0]
        | .Decimals => [1]
        | .Description => [2]
        | .RoundData round_id => [3, round_id % 256, round_id / 256 % 256,
            round_id / 256 / 256 % 256, round_id / 256 / 256 / 256 % 256]
        | .LatestRoundData => [4]
        | .Aggregator => [5]) := by
  cases scope <;> rfl

/-- C4: each public entry point is exactly the core `query` with its fixed
`Query` variant and decoder (u8, u8, string, `Round`, 32-byte key), and none
of the five fixed variants is `RoundData`, so no public entry point lets a
caller supply a `round_id`. -/
theorem c4_entry_point_bindings (rt : Runtime) (pid feed : AccountInfo) :
    (version rt pid feed = query rt u8Decode pid feed Query.Version ∧
     decimals rt pid feed = query rt u8Decode pid feed Query.Decimals ∧
     description rt pid feed = query rt stringDecode pid feed Query.Description ∧
     latest_round_data rt pid feed =
       query rt roundDecode pid feed Query.LatestRoundData ∧
     aggregator rt pid feed = query rt pubkeyDecode pid feed Query.Aggregator) ∧
    ∀ round_id : Nat,
      Query.Version ≠ Query.RoundData round_id ∧
      Query.Decimals ≠ Query.RoundData round_id ∧
      Query.Description ≠ Query.RoundData round_id ∧
      Query.LatestRoundData ≠ Query.RoundData round_id ∧
      Query.Aggregator ≠ Query.RoundData round_id :=
  ⟨⟨rfl, rfl, rfl, rfl, rfl⟩, fun _ => ⟨nofun, nofun, nofun, nofun, nofun⟩⟩

/-- C4 witness: the bindings and the impossibility of reaching `RoundData`
instantiated at a concrete runtime and concrete accounts. -/
theorem c4_entry_point_bindings_witness :
    version (constRuntime (Except.ok none)) testAccount testAccount =
      query (constRuntime (Except.ok none)) u8Decode testAccount testAccount
        Query.Version ∧
    Query.Version ≠ Query.RoundData 0 :=
  ⟨(c4_entry_point_bindings (constRuntime (Except.ok none)) testAccount
      testAccount).1.1,
   ((c4_entry_point_bindings (constRuntime (Except.ok none)) testAccount
      testAccount).2 0).1⟩

/-- C5: for every call the built instruction names the caller-resolved
program id as target and carries exactly one account meta — the feed key,
read-only and non-signing — with the discriminator-prefixed encoding as
data. -/
theorem c5_instruction_shape (pid feed : AccountInfo) (scope : Query) :
    buildInstruction pid feed scope = Except.ok
      { program_id := pid.key,
        accounts := [{ pubkey := feed.key, is_signer := false,
                       is_writable := false }],
        data := queryInstructionDiscriminator ++ scope.serializeBytes } := rfl

/-- C9: the encode-failure branch is unreachable — writing the 8-byte
discriminator and serializing the variant into the growable buffer always
succeed, so building the instruction never takes the `InvalidAccountData`
mapping on the two encode steps. -/
theorem c9_encode_never_fails (pid feed : AccountInfo) (scope : Query) :
    (∀ buf bytes : List Nat, cursorWriteAll buf bytes = Except.ok (buf ++ bytes)) ∧
    (∀ buf : List Nat,
      borshSerializeQueryTo scope buf = Except.ok (buf ++ scope.serializeBytes)) ∧
    ∀ e : ProgramError, buildInstruction pid feed scope ≠ Except.error e :=
  ⟨fun _ _ => rfl, fun _ => rfl, fun _ h => Except.noConfusion h⟩

/-- C9 witness: the never-fails statement instantiated at concrete accounts
and a concrete variant. -/
theorem c9_encode_never_fails_witness :
    buildInstruction testAccount testAccount Query.Version ≠
      Except.error ProgramError.InvalidAccountData :=
  (c9_encode_never_fails testAccount testAccount Query.Version).2.2
    ProgramError.InvalidAccountData

/-- C10: the decoded result depends only on the return-data bytes, never on
the program-identity tag the runtime attaches to them — the code drops the
key unexamined. -/
theorem c10_return_data_key_ignored {T : Type} (dec : BorshDecoder T)
    (pid feed : AccountInfo) (scope : Query) (key1 key2 : Pubkey)
    (bytes : List Nat) :
    query (constRuntime (Except.ok (some (key1, bytes)))) dec pid feed scope =
      query (constRuntime (Except.ok (some (key2, bytes)))) dec pid feed scope :=
  rfl

/-- Strict borsh decoding of a u8 rejects every buffer whose length is not
exactly 1. -/
theorem tryFromSlice_u8_of_length_ne_one (bytes : List Nat)
    (h : bytes.length ≠ 1) : tryFromSlice u8Decode bytes = none := by
  match bytes with
  | [] => rfl
  | [_] => exact absurd rfl h
  | _ :: _ :: _ => rfl

/-- C3: a decode mismatch on the returned buffer makes the call return the
data-format error, never panic and never a truncated success; in particular
`version` and `decimals` reject any returned buffer whose length is not
exactly 1 byte. -/
theorem c3_decode_mismatch_errors :
    (∀ (T : Type) (dec : BorshDecoder T) (pid feed : AccountInfo) (scope : Query)
        (k : Pubkey) (bytes : List Nat),
      tryFromSlice dec bytes = none →
      query (constRuntime (Except.ok (some (k, bytes)))) dec pid feed scope =
        Outcome.err ProgramError.InvalidAccountData) ∧
    (∀ (T : Type) (dec : BorshDecoder T) (pid feed : AccountInfo) (scope : Query)
        (k : Pubkey) (bytes : List Nat) (s : String),
      query (constRuntime (Except.ok (some (k, bytes)))) dec pid feed scope ≠
        Outcome.panic s) ∧
    (∀ (pid feed : AccountInfo) (k : Pubkey) (bytes : List Nat),
      bytes.length ≠ 1 →
      version (constRuntime (Except.ok (some (k, bytes)))) pid feed =
        Outcome.err ProgramError.InvalidAccountData ∧
      decimals (constRuntime (Except.ok (some (k, bytes)))) pid feed =
        Outcome.err ProgramError.InvalidAccountData) := by
  have hred : ∀ (T : Type) (dec : BorshDecoder T) (pid feed : AccountInfo)
      (scope : Query) (k : Pubkey) (bytes : List Nat),
      query (constRuntime (Except.ok (some (k, bytes)))) dec pid feed scope =
        (match tryFromSlice dec bytes with
         | none => Outcome.err ProgramError.InvalidAccountData
         | some v => Outcome.ok v) :=
    fun _ _ _ _ _ _ _ => rfl
  refine ⟨?_, ?_, ?_⟩
  · intro T dec pid feed scope k bytes h
    rw [hred, h]
  · intro T dec pid feed scope k bytes s
    rw [hred]
    cases tryFromSlice dec bytes <;> simp
  · intro pid feed k bytes h
    have hnone := tryFromSlice_u8_of_length_ne_one bytes h
    constructor
    · unfold version
      rw [hred Nat u8Decode pid feed Query.Version k bytes, hnone]
    · unfold decimals
      rw [hred Nat u8Decode pid feed Query.Decimals k bytes, hnone]

/-- C3 witness: the theorem instantiated at a concrete 2-byte returned
buffer for a u8 query. -/
theorem c3_decode_mismatch_errors_witness :
    tryFromSlice u8Decode [1, 2] = none ∧
    query (constRuntime (Except.ok (some (testKey, [1, 2])))) u8Decode
      testAccount testAccount Query.Version =
        Outcome.err ProgramError.InvalidAccountData ∧
    version (constRuntime (Except.ok (some (testKey, [1, 2])))) testAccount
      testAccount = Outcome.err ProgramError.InvalidAccountData :=
  ⟨rfl,
   c3_decode_mismatch_errors.1 Nat u8Decode testAccount testAccount
     Query.Version testKey [1, 2] rfl,
   (c3_decode_mismatch_errors.2.2 testAccount testAccount testKey [1, 2]
     (by decide)).1⟩

/-- The well-formedness of a `Round` value as machine integers: u32, u64,
u32 fields and an i128 answer. -/
def wfRound (r : Round) : Prop :=
  r.round_id < 2 ^ 32 ∧ r.slot < 2 ^ 64 ∧ r.timestamp < 2 ^ 32 ∧
    -(2 ^ 127) ≤ r.answer ∧ r.answer < 2 ^ 127

/-- Decoding the two's-complement bytes of an in-range i128 with nothing
after them yields the value and an empty remainder. -/
theorem i128Decode_natToLe (a : Int) (h1 : -(2 ^ 127) ≤ a) (h2 : a < 2 ^ 127) :
    i128Decode (natToLe 16 (Int.toNat (Int.emod a (2 ^ 128)))) = some (a, []) := by
  have h := i128Decode_roundtrip a [] h1 h2
  rwa [List.append_nil] at h

/-- C6: serializing any well-formed `Round` — including an `answer` at
either end of the signed 128-bit range — and strictly deserializing the
bytes reproduces the original value exactly. -/
theorem c6_round_roundtrip (r : Round) (h : wfRound r) :
    tryFromSlice roundDecode (Round.serializeBytes r) = some r := by
  obtain ⟨h1, h2, h3, h4, h5⟩ := h
  have e32 : (256 : Nat) ^ 4 = 2 ^ 32 := by norm_num
  have e64 : (256 : Nat) ^ 8 = 2 ^ 64 := by norm_num
  have hrid : r.round_id < 256 ^ 4 := by omega
  have hslot : r.slot < 256 ^ 8 := by omega
  have hts : r.timestamp < 256 ^ 4 := by omega
  unfold tryFromSlice roundDecode u32Decode u64Decode Round.serializeBytes
  rw [readLe_natToLe_append 4 r.round_id _ hrid]
  simp only
  rw [readLe_natToLe_append 8 r.slot _ hslot]
  simp only
  rw [readLe_natToLe_append 4 r.timestamp _ hts]
  simp only
  rw [i128Decode_natToLe r.answer h4 h5]

/-- The spec's round extremes: a round whose answer is the least signed
128-bit value. -/
def roundAnswerMin : Round :=
  { round_id := 42, slot := 1000, timestamp := 1700000000,
    answer := -(2 ^ 127) }

/-- The spec's round extremes: a round whose answer is the greatest signed
128-bit value. -/
def roundAnswerMax : Round :=
  { round_id := 4294967295, slot := 18446744073709551615,
    timestamp := 4294967295, answer := 2 ^ 127 - 1 }

set_option maxRecDepth 20000 in
/-- C6 witness: the round-trip law instantiated at both extremes of the
signed 128-bit answer range. -/
theorem c6_round_roundtrip_witness :
    (wfRound roundAnswerMin ∧
      tryFromSlice roundDecode (Round.serializeBytes roundAnswerMin) =
        some roundAnswerMin) ∧
    (wfRound roundAnswerMax ∧
      tryFromSlice roundDecode (Round.serializeBytes roundAnswerMax) =
        some roundAnswerMax) :=
  ⟨⟨by unfold wfRound; decide, c6_round_roundtrip roundAnswerMin
      (by unfold wfRound; decide)⟩,
   ⟨by unfold wfRound; decide, c6_round_roundtrip roundAnswerMax
      (by unfold wfRound; decide)⟩⟩

/-- C7 (counterexample): when the underlying call fails because the invoked
program supplied no return data, the Anchor adapter panics instead of
returning the fixed `AccountNotEnoughKeys` error, refuting the claim that
every failure of the underlying call is returned as that error. -/
theorem c7_counterexample :
    latest_round_data_anchor (constRuntime (Except.ok none)) testAnchorAccount
      testAnchorAccount = Outcome.panic ("chainlink store had no return_data!") ∧
    latest_round_data_anchor (constRuntime (Except.ok none)) testAnchorAccount
      testAnchorAccount ≠ Outcome.err AnchorError.AccountNotEnoughKeys := by
  exact ⟨rfl, by decide⟩

/-- C7 (amended): for every failure of the underlying call that is returned
as an error — encode, invocation, or decode failure — each of the three
Anchor adapters returns the single fixed `AccountNotEnoughKeys` error; the
missing-return-data failure instead panics through the adapter unconverted. -/
theorem c7_adapter_error_collapse (rt : Runtime) (pid feed : AnchorAccountInfo) :
    (∀ e : ProgramError,
      latest_round_data rt (anchor_to_solana_account_info pid)
        (anchor_to_solana_account_info feed) = Outcome.err e →
      latest_round_data_anchor rt pid feed =
        Outcome.err AnchorError.AccountNotEnoughKeys) ∧
    (∀ e : ProgramError,
      decimals rt (anchor_to_solana_account_info pid)
        (anchor_to_solana_account_info feed) = Outcome.err e →
      decimals_anchor rt pid feed =
        Outcome.err AnchorError.AccountNotEnoughKeys) ∧
    (∀ e : ProgramError,
      description rt (anchor_to_solana_account_info pid)
        (anchor_to_solana_account_info feed) = Outcome.err e →
      description_anchor rt pid feed =
        Outcome.err AnchorError.AccountNotEnoughKeys) ∧
    (∀ s : String,
      latest_round_data rt (anchor_to_solana_account_info pid)
        (anchor_to_solana_account_info feed) = Outcome.panic s →
      latest_round_data_anchor rt pid feed = Outcome.panic s) := by
  refine ⟨fun e h => ?_, fun e h => ?_, fun e h => ?_, fun s h => ?_⟩
  · unfold latest_round_data_anchor
    simp only [h]
  · unfold decimals_anchor
    simp only [h]
  · unfold description_anchor
    simp only [h]
  · unfold latest_round_data_anchor
    simp only [h]

/-- C7 witness: the amended statement instantiated at a stub runtime whose
invocation fails, and at one that succeeds without return data. -/
theorem c7_adapter_error_collapse_witness :
    latest_round_data_anchor (constRuntime (Except.error (ProgramError.Other 3)))
      testAnchorAccount testAnchorAccount =
        Outcome.err AnchorError.AccountNotEnoughKeys ∧
    latest_round_data_anchor (constRuntime (Except.ok none)) testAnchorAccount
      testAnchorAccount =
        Outcome.panic ("chainlink store had no return_data!") :=
  ⟨(c7_adapter_error_collapse (constRuntime (Except.error (ProgramError.Other 3)))
      testAnchorAccount testAnchorAccount).1 (ProgramError.Other 3) rfl,
   (c7_adapter_error_collapse (constRuntime (Except.ok none)) testAnchorAccount
      testAnchorAccount).2.2.2 ("chainlink store had no return_data!") rfl⟩

/-- Reduction of `query` against a stub runtime whose invocation succeeds
and publishes the given return data: the result is decided entirely by
strict decoding of the bytes. -/
theorem query_with_return_data {T : Type} (dec : BorshDecoder T)
    (pid feed : AccountInfo) (scope : Query) (k : Pubkey) (bytes : List Nat) :
    query (constRuntime (Except.ok (some (k, bytes)))) dec pid feed scope =
      match tryFromSlice dec bytes with
      | none => Outcome.err ProgramError.InvalidAccountData
      | some v => Outcome.ok v := rfl

/-- C8: `description` succeeds on every valid length-prefixed text buffer,
including one declaring empty text, and fails with the data-format error on
every buffer whose declared length exceeds the bytes remaining after the
prefix. -/
theorem c8_description_length_discipline :
    (∀ (pid feed : AccountInfo) (k : Pubkey) (text : List Nat),
      text.length < 2 ^ 32 → stringDecode.isValidUtf8 text = true →
      description (constRuntime (Except.ok (some (k,
          natToLe 4 text.length ++ text)))) pid feed = Outcome.ok text) ∧
    (∀ (pid feed : AccountInfo) (k : Pubkey) (n : Nat) (rest : List Nat),
      n < 2 ^ 32 → rest.length < n →
      description (constRuntime (Except.ok (some (k, natToLe 4 n ++ rest))))
        pid feed = Outcome.err ProgramError.InvalidAccountData) := by
  have e32 : (256 : Nat) ^ 4 = 2 ^ 32 := by norm_num
  constructor
  · intro pid feed k text hlen hutf
    have h4 : text.length < 256 ^ 4 := by omega
    have hsd : stringDecode (natToLe 4 text.length ++ text) = some (text, []) := by
      unfold stringDecode u32Decode
      rw [readLe_natToLe_append 4 text.length text h4]
      simp [hutf]
    have htfs : tryFromSlice stringDecode (natToLe 4 text.length ++ text) =
        some text := by
      unfold tryFromSlice
      rw [hsd]
    unfold description
    rw [query_with_return_data]
    rw [htfs]
  · intro pid feed k n rest hn hrest
    have h4 : n < 256 ^ 4 := by omega
    have hsd : stringDecode (natToLe 4 n ++ rest) = none := by
      unfold stringDecode u32Decode
      rw [readLe_natToLe_append 4 n rest h4]
      have hnle : ¬ (n ≤ rest.length) := by omega
      simp [hnle]
    have htfs : tryFromSlice stringDecode (natToLe 4 n ++ rest) = none := by
      unfold tryFromSlice
      rw [hsd]
    unfold description
    rw [query_with_return_data]
    rw [htfs]

/-- C8 witness: the theorem instantiated at the empty text (buffer
`[0,0,0,0]`) and at a buffer declaring 5 bytes of text while only 1
remains. -/
theorem c8_description_length_discipline_witness :
    description (constRuntime (Except.ok (some (testKey, [0, 0, 0, 0]))))
      testAccount testAccount = Outcome.ok [] ∧
    description (constRuntime (Except.ok (some (testKey, [5, 0, 0, 0, 65]))))
      testAccount testAccount = Outcome.err ProgramError.InvalidAccountData :=
  ⟨c8_description_length_discipline.1 testAccount testAccount testKey []
     (by decide) (by decide),
   c8_description_length_discipline.2 testAccount testAccount testKey 5 [65]
     (by decide) (by decide)⟩

end ChainlinkSolana
